import Mathlib

/-!
Shallow embedding of the pipeline/ledger core of the POV video automation
repository: the step runner in src/scripts/main.py, the configuration module
src/config/settings.py, the spreadsheet ledger src/utils/google_sheets.py and
the publisher selection logic in src/scripts/youtube_publisher.py.

Python values that flow through stage results and JSON artifacts are embedded
as the inductive PyVal; the artifact directory (settings.TEMP_DIR) is an
association list from file name to the JSON value stored in that file
(json.dump followed by json.load is the identity on this payload class, so
serialization is modelled as storing the tree itself).  External Google API
calls are embedded as Except-valued inputs: an error value stands for the call
raising, and the Option layer stands for a response missing the expected key.
-/

namespace POV

/-- JSON-representable Python values, plus the None sentinel used by the
runner to mark a failed stage (src/scripts/main.py run_step). -/
inductive PyVal where
  | vNone : PyVal
  | vBool : Bool → PyVal
  | vInt : Int → PyVal
  | vStr : String → PyVal
  | vList : List PyVal → PyVal
  | vDict : List (String × PyVal) → PyVal

/-- Python truthiness of an embedded value: None, False, 0, empty string,
empty list and empty dict are falsy. -/
def PyVal.truthy : PyVal → Bool
  | .vNone => false
  | .vBool b => b
  | .vInt n => n != 0
  | .vStr s => !s.isEmpty
  | .vList xs => !xs.isEmpty
  | .vDict kvs => !kvs.isEmpty

/-- Whether the value is a Python dict (isinstance(result, dict)). -/
def PyVal.isDict : PyVal → Bool
  | .vDict _ => true
  | _ => false

/-- Whether the value is a Python list (isinstance(result, list)). -/
def PyVal.isList : PyVal → Bool
  | .vList _ => true
  | _ => false

/-- Whether the value is the Python None sentinel. -/
def PyVal.isNone : PyVal → Bool
  | .vNone => true
  | _ => false

/-- Python str.upper over the ASCII statuses and headers involved. -/
def pyUpper (s : String) : String := String.mk (s.data.map Char.toUpper)

/-- Python str.lower over the ASCII statuses and headers involved. -/
def pyLower (s : String) : String := String.mk (s.data.map Char.toLower)

/-- Python str.strip: drop whitespace from both ends. -/
def pyStrip (s : String) : List Char :=
  ((s.data.dropWhile Char.isWhitespace).reverse.dropWhile Char.isWhitespace).reverse

/-- Base-10 value of a digit string, the int() conversion applied by
get_next_available_id to cells that passed the isdigit check. -/
def digitsToNat (cs : List Char) : Nat :=
  cs.foldl (fun n c => n * 10 + (c.toNat - 48)) 0

/-- The artifact directory: file name to stored JSON value. -/
def Store : Type := List (String × PyVal)

/-- Writing a file: a fresh entry shadows any previous file of that name. -/
def storePut (store : Store) (fileName : String) (v : PyVal) : Store :=
  (fileName, v) :: store

/-- Reading a file from the artifact directory, none when absent. -/
def storeGet (store : Store) (fileName : String) : Option PyVal :=
  List.lookup fileName store

/-- Exceptions the embedded Python code can raise. -/
inductive PyErr where
  | attributeError : PyErr
  deriving DecidableEq

/-- Module-level bindings of src/config/settings.py, in assignment order with
the later of duplicate assignments kept.  Environment-derived values
(os.getenv, filesystem paths) and long vendor literals are elided to vNone or
the empty string: attribute lookup on the module consults only the names.
Note that no binding named STOP_ON_ERROR exists anywhere in the file, although
src/scripts/main.py line 252 reads settings.STOP_ON_ERROR. -/
def settingsModule : List (String × PyVal) :=
  [("BASE_DIR", .vStr ""), ("TEMP_DIR", .vStr ""),
   ("CREDENTIALS_DIR", .vStr ""), ("LOGS_DIR", .vStr ""),
   ("GEMINI_API_KEY", .vNone), ("ELEVENLABS_API_KEY", .vNone),
   ("CREATOMATE_API_KEY", .vNone), ("GOOGLE_SHEETS_SPREADSHEET_ID", .vNone),
   ("GOOGLE_APPLICATION_CREDENTIALS", .vNone), ("YOUTUBE_CLIENT_ID", .vNone),
   ("YOUTUBE_CLIENT_SECRET", .vNone), ("YOUTUBE_REFRESH_TOKEN", .vNone),
   ("POLLINATIONS_IMAGE_WIDTH", .vInt 540),
   ("POLLINATIONS_IMAGE_HEIGHT", .vInt 960),
   ("POLLINATIONS_MODEL", .vStr "flux"), ("POLLINATIONS_SEED", .vInt 42),
   ("POLLINATIONS_URL", .vStr ""), ("POLLINATIONS_NO_LOGO", .vBool true),
   ("ELEVENLABS_URL", .vStr ""), ("ELEVENLABS_DURATION", .vInt 5),
   ("ELEVENLABS_PROMPT_INFLUENCE", .vNone),
   ("ELEVENLABS_VOICE_ID", .vStr "default"),
   ("FFMPEG_ZOOM_FILTER", .vStr ""), ("FFMPEG_VIDEO_DURATION", .vInt 10),
   ("FFMPEG_CODEC", .vStr "libx264"), ("FFMPEG_PIXEL_FORMAT", .vStr "yuv420p"),
   ("CREATOMATE_TEMPLATE_ID", .vStr ""), ("CREATOMATE_API_URL", .vStr ""),
   ("CREATOMATE_OUTPUT_FORMAT", .vStr "mp4"),
   ("CREATOMATE_OUTPUT_QUALITY", .vStr "high"),
   ("IMAGE_FILENAME_TEMPLATE", .vStr ""),
   ("VIDEO_FILENAME_TEMPLATE", .vStr ""),
   ("AUDIO_FILENAME_TEMPLATE", .vStr ""),
   ("FINAL_VIDEO_FILENAME", .vStr ""),
   ("MAX_SCENES_PER_VIDEO", .vInt 5),
   ("VIDEO_RESOLUTION", .vList [.vInt 540, .vInt 960]),
   ("SHEET_NAME", .vStr "youtube"), ("IDEAS_SHEET_RANGE", .vStr "A:G"),
   ("VIDEOS_SHEET_RANGE", .vStr "A:I"),
   ("COLUMNS", .vDict [("ID", .vInt 0), ("IDEA", .vInt 1),
     ("HASHTAG", .vInt 2), ("CAPTION", .vInt 3), ("PRODUCTION", .vInt 4),
     ("ENVIRONMENT_PROMPT", .vInt 5), ("STATUS_PUBLISHING", .vInt 6),
     ("VIDEO_URL", .vInt 7)]),
   ("STATUS_PENDING", .vStr "pending"),
   ("STATUS_FOR_PRODUCTION", .vStr "for production"),
   ("STATUS_FOR_PUBLISHING", .vStr "for publishing"),
   ("STATUS_PUBLISHED", .vStr "published"),
   ("MAX_RETRIES", .vInt 5), ("RETRY_DELAY", .vInt 3),
   ("LOG_LEVEL", .vInt 20), ("LOG_FORMAT", .vStr ""), ("LOG_FILE", .vStr ""),
   ("API_TIMEOUT", .vInt 60), ("FFMPEG_TIMEOUT", .vInt 300),
   ("UPLOAD_TIMEOUT", .vInt 600),
   ("RUN_IDEA_GENERATION", .vBool true),
   ("RUN_PROMPT_ENHANCEMENT", .vBool true),
   ("RUN_IMAGE_GENERATION", .vBool true),
   ("RUN_VIDEO_PROCESSING", .vBool true),
   ("RUN_AUDIO_GENERATION", .vBool true),
   ("RUN_VIDEO_COMPOSITION", .vBool true),
   ("RUN_YOUTUBE_UPLOAD", .vBool true),
   ("POV_THEME", .vStr "Ancient Egyptian"),
   ("POV_CATEGORIES", .vList [.vStr "Pharaoh", .vStr "Scribe", .vStr "Priest",
     .vStr "Craftsman", .vStr "Soldier", .vStr "Merchant"])]

/-- settings.RETRY_DELAY (src/config/settings.py line 125), in seconds. -/
def RETRY_DELAY : Nat := 3

/-- settings.STATUS_FOR_PRODUCTION (src/config/settings.py line 115). -/
def STATUS_FOR_PRODUCTION : String := "for production"

/-- settings.STATUS_FOR_PUBLISHING (src/config/settings.py line 116). -/
def STATUS_FOR_PUBLISHING : String := "for publishing"

/-- Attribute access settings.STOP_ON_ERROR, performed by run_pipeline when a
stage fails (src/scripts/main.py line 252): none means the attribute is
missing from the module, in which case Python raises AttributeError. -/
def settingsSTOP_ON_ERROR : Option PyVal :=
  List.lookup "STOP_ON_ERROR" settingsModule

/-- The step ids of the STEPS table of src/scripts/main.py lines 48 to 89, in
declaration order (Python dicts preserve insertion order). -/
def STEP_IDS : List String :=
  ["ideas", "scenes", "prompts", "images", "videos", "audio", "compose",
   "publish"]

/-- One invocation of a stage function either raises or returns a value. -/
inductive Outcome where
  | raises : Outcome
  | returns : PyVal → Outcome

/-- Result of run_step: how many times the stage function was invoked, the
sleep durations taken between attempts, the returned Python value (vNone both
for the retry-exhaustion path and for a stage function that itself returned
None), and the artifact directory afterwards. -/
structure StepRes where
  invocations : Nat
  sleeps : List Nat
  result : PyVal
  store : Store

/-- The artifact write at src/scripts/main.py lines 186 to 191: the result is
stored in TEMP_DIR/step_id_result.json only when it is truthy and a dict or a
list; any other result, including an empty list or empty dict, is not written. -/
def artifact_put (store : Store) (stepId : String) (result : PyVal) : Store :=
  if result.truthy && (result.isDict || result.isList) then
    storePut store (stepId ++ "_result.json") result
  else store

/-- The retry loop of run_step (src/scripts/main.py lines 181 to 204): the
attempt argument is the 0-based loop index, the second argument the number of
attempts still available.  A successful call stores the artifact and returns;
a raising call sleeps RETRY_DELAY * (attempt + 1) and retries while attempts
remain, and yields None once they are exhausted. -/
def run_stepAttempts (stepId : String) (behavior : Nat → Outcome)
    (store : Store) : Nat → Nat → StepRes
  | 0, _ => ⟨0, [], .vNone, store⟩
  | 1, attempt =>
    match behavior attempt with
    | .returns v => ⟨1, [], v, artifact_put store stepId v⟩
    | .raises => ⟨1, [], .vNone, store⟩
  | remaining + 2, attempt =>
    match behavior attempt with
    | .returns v => ⟨1, [], v, artifact_put store stepId v⟩
    | .raises =>
      let rest := run_stepAttempts stepId behavior store (remaining + 1) (attempt + 1)
      ⟨rest.invocations + 1, RETRY_DELAY * (attempt + 1) :: rest.sleeps,
       rest.result, rest.store⟩

/-- run_step (src/scripts/main.py lines 151 to 204).  An unknown step id is
logged and yields None with no invocation.  The dependency check at lines 169
to 178 only logs warnings for missing upstream artifact files and never blocks
the invocation, so it has no effect on this semantics. -/
def run_step (stepId : String) (behavior : Nat → Outcome) (store : Store)
    (retry_count : Nat) : StepRes :=
  if STEP_IDS.contains stepId then
    run_stepAttempts stepId behavior store retry_count 0
  else ⟨0, [], .vNone, store⟩

/-- How run_pipeline records a stage outcome (src/scripts/main.py line 248):
success means the value returned by run_step is not None. -/
def stageSuccess (r : StepRes) : Bool := !r.result.isNone

/-- Window resolution of run_pipeline (src/scripts/main.py lines 227 to 236):
slice the fixed step order from start_step when it names a known step, then cut
after end_step when it occurs in the sliced list. -/
def resolveWindow (startStep endStep : Option String) : List String :=
  let steps1 := match startStep with
    | some s =>
      match STEP_IDS.findIdx? (fun t => t == s) with
      | some i => STEP_IDS.drop i
      | none => STEP_IDS
    | none => STEP_IDS
  match endStep with
  | some e =>
    match steps1.findIdx? (fun t => t == e) with
    | some i => steps1.take (i + 1)
    | none => steps1
  | none => steps1

/-- The temp-directory cleanup decision of run_pipeline (src/scripts/main.py
line 223): clean_temp_directory runs only when clean_temp is set and
start_step compares equal to the string ideas; the default start_step None
never triggers it. -/
def cleanHappens (clean_temp : Bool) (startStep : Option String) : Bool :=
  clean_temp && (startStep == some "ideas")

/-- Outcome of the per-step loop of run_pipeline (lines 246 to 254): the
entries written into the results dict in order, the number of successes, the
artifact directory afterwards, and the exception, if any, that propagated out
of the loop. -/
structure LoopRes where
  results : List (String × Bool)
  successes : Nat
  store : Store
  err : Option PyErr

/-- The per-step loop of run_pipeline (src/scripts/main.py lines 246 to 254).
On a stage failure the code evaluates settings.STOP_ON_ERROR: when the
attribute is missing this raises AttributeError (the failure record was
already placed in the results dict); were it present, a truthy value would
break out of the loop and a falsy one would continue. -/
def runStepsLoop (behaviors : String → Nat → Outcome) (retry : Nat) :
    List String → Store → LoopRes
  | [], store => ⟨[], 0, store, none⟩
  | s :: rest, store =>
    let r := run_step s (behaviors s) store retry
    if stageSuccess r then
      let lr := runStepsLoop behaviors retry rest r.store
      ⟨(s, true) :: lr.results, lr.successes + 1, lr.store, lr.err⟩
    else
      match settingsSTOP_ON_ERROR with
      | none => ⟨[(s, false)], 0, r.store, some .attributeError⟩
      | some v =>
        if v.truthy then ⟨[(s, false)], 0, r.store, none⟩
        else
          let lr := runStepsLoop behaviors retry rest r.store
          ⟨(s, false) :: lr.results, lr.successes, lr.store, lr.err⟩

/-- Observable outcome of one run_pipeline invocation: whether the temp
directory was cleared, the resolved stage window, the recorded per-stage
results, the success count, the exception (if one propagated out of
run_pipeline), and the artifact directory afterwards. -/
structure PipelineRun where
  cleaned : Bool
  window : List String
  results : List (String × Bool)
  steps_success : Nat
  err : Option PyErr
  store : Store

/-- run_pipeline (src/scripts/main.py lines 206 to 278).  Stage behaviors are
passed explicitly; the summary file pipeline_summary.json is written at the
end of a run that did not raise. -/
def run_pipeline (behaviors : String → Nat → Outcome)
    (startStep endStep : Option String) (retry_count : Nat)
    (clean_temp : Bool) (store0 : Store) : PipelineRun :=
  let cleaned := cleanHappens clean_temp startStep
  let store1 := if cleaned then [] else store0
  let window := resolveWindow startStep endStep
  let lr := runStepsLoop behaviors retry_count window store1
  let store2 := match lr.err with
    | some _ => lr.store
    | none =>
      storePut lr.store "pipeline_summary.json"
        (.vDict [("steps_total", .vInt window.length),
                 ("steps_success", .vInt lr.successes)])
  ⟨cleaned, window, lr.results, lr.successes, lr.err, store2⟩

/-- The artifact read shaped after load_composition_result
(src/scripts/youtube_publisher.py lines 148 to 168), generalized over the file
name: a missing file yields the empty dict default, a present file yields the
parsed JSON value. -/
def artifact_get (store : Store) (fileName : String) : PyVal :=
  match storeGet store fileName with
  | none => .vDict []
  | some v => v

/-! Ledger: GoogleSheetsManager (src/utils/google_sheets.py).  The remote
spreadsheet range is a list of rows of string cells, row 0 being the header.
The values().get API call is a parameter of type Except Unit (Option _): the
error stands for the call raising (caught and logged by get_values), the inner
Option for a response that lacks the values key. -/

/-- get_values (src/utils/google_sheets.py lines 82 to 106): any exception is
caught and yields the empty list; a response without the values key yields the
default empty list. -/
def get_values (fetch : Except Unit (Option (List (List String)))) :
    List (List String) :=
  match fetch with
  | .error _ => []
  | .ok none => []
  | .ok (some vs) => vs

/-- update_values (src/utils/google_sheets.py lines 107 to 140), reduced to
its returned cell count: exceptions are caught and yield 0, a response without
the updatedCells key yields the default 0. -/
def update_values (svc : Except Unit (Option Nat)) : Nat :=
  match svc with
  | .error _ => 0
  | .ok none => 0
  | .ok (some n) => n

/-- append_values (src/utils/google_sheets.py lines 142 to 177), reduced to
its returned row count: exceptions are caught and yield 0, a response without
the updates/updatedRows keys yields the default 0. -/
def append_values (svc : Except Unit (Option Nat)) : Nat :=
  match svc with
  | .error _ => 0
  | .ok none => 0
  | .ok (some n) => n

/-- Row padding row + [''] * (n - len(row)) used throughout the module. -/
def extendRow (row : List String) (n : Nat) : List String :=
  row ++ List.replicate (n - row.length) ""

/-- A Python dict comprehension over header/cell pairs, represented as the
zipped association list; with duplicate headers the later pair wins, so
lookups scan from the right. -/
def rowDict (headers row : List String) : List (String × String) :=
  List.zip headers (extendRow row headers.length)

/-- dict.get(key): the value of the last pair carrying the key, none when the
key is absent (Python dict comprehensions keep the last duplicate). -/
def dget (d : List (String × String)) (key : String) : Option String :=
  List.lookup key d.reverse

/-- dict.get(key, default). -/
def dgetD (d : List (String × String)) (key default : String) : String :=
  (dget d key).getD default

/-- convert_to_dict_list (src/utils/google_sheets.py lines 253 to 277): fewer
than two rows yield the empty list; otherwise each data row is padded to the
header width and zipped with the header row. -/
def convert_to_dict_list (values : List (List String)) :
    List (List (String × String)) :=
  match values with
  | headers :: row1 :: rows => (row1 :: rows).map (rowDict headers)
  | _ => []

/-- get_ideas_for_production (src/utils/google_sheets.py lines 307 to 337):
keeps the rows whose Production value compares equal, case-sensitively, to
settings.STATUS_FOR_PRODUCTION; a row without the column has value None and
never matches. -/
def get_ideas_for_production (values : List (List String)) :
    List (List (String × String)) :=
  if values.isEmpty then []
  else
    (convert_to_dict_list values).filter
      (fun idea => dget idea "Production" == some STATUS_FOR_PRODUCTION)

/-- The status read of get_ideas_for_publishing (lines 361 to 364): the value
under Status Publishing, falling back to Status_Publishing when the former is
absent or empty. -/
def publishingStatusOf (idea : List (String × String)) : String :=
  let s := dgetD idea "Status Publishing" ""
  if s.isEmpty then dgetD idea "Status_Publishing" "" else s

/-- The filter condition of get_ideas_for_publishing (line 366): lower-cased
status equals lower-cased settings.STATUS_FOR_PUBLISHING. -/
def pubMatch (idea : List (String × String)) : Bool :=
  pyLower (publishingStatusOf idea) == pyLower STATUS_FOR_PUBLISHING

/-- get_ideas_for_publishing (src/utils/google_sheets.py lines 339 to 374). -/
def get_ideas_for_publishing (values : List (List String)) :
    List (List (String × String)) :=
  if values.isEmpty then []
  else (convert_to_dict_list values).filter pubMatch

/-- The single-item pick of process_youtube_publishing
(src/scripts/youtube_publisher.py lines 687 to 698): get_publishing_ideas
forwards get_ideas_for_publishing unchanged (lines 308 to 328), the stage
skips when the list is empty and otherwise acts on ideas[0] only. -/
def process_publishing_selection (values : List (List String)) :
    Option (List (String × String)) :=
  (get_ideas_for_publishing values).head?

/-- The header scan for the publishing status column used by
update_publishing_status (lines 485 to 489): first header equal to Status
Publishing or Status_Publishing. -/
def findStatusColumn (headers : List String) : Option Nat :=
  headers.findIdx? (fun h => h == "Status Publishing" || h == "Status_Publishing")

/-- update_publishing_status (src/utils/google_sheets.py lines 461 to 524).
Missing data (fewer than two rows, no status column, no row whose ID cell
matches) yields False.  When a row is found the status cell is assigned after
padding the row, the row is sent through update_values, and True is returned
without inspecting the update call result (line 517): an underlying update
error is swallowed inside update_values and does not change the True. -/
def update_publishing_status (fetch : Except Unit (Option (List (List String))))
    (updateSvc : Except Unit (Option Nat)) (idea_id newStatus : String) : Bool :=
  match get_values fetch with
  | headers :: row1 :: rows =>
    match findStatusColumn headers with
    | none => false
    | some statusCol =>
      let idCol := (headers.findIdx? (fun h => h == "ID")).getD 0
      match (row1 :: rows).findIdx?
          (fun row => decide (idCol < row.length) && (row.getD idCol "" == idea_id)) with
      | none => false
      | some j =>
        let row := (row1 :: rows).getD j []
        let rowExt := if row.length ≤ statusCol then extendRow row (statusCol + 1)
          else row
        let _written := rowExt.set statusCol newStatus
        let _upd := update_values updateSvc
        true
  | _ => false

/-- The ID-column scan shared by append_new_ideas (lines 556 to 560) and
get_next_available_id (lines 685 to 690): first header whose upper-cased text
is ID. -/
def findIdColumn (headers : List String) : Option Nat :=
  headers.findIdx? (fun h => pyUpper h == "ID")

/-- The numeric reading of an ID cell in get_next_available_id (lines 701 to
704): strip whitespace, accept only non-empty all-digit strings. -/
def parsedId (cell : String) : Option Nat :=
  let t := pyStrip cell
  if !t.isEmpty && t.all (fun c => c.isDigit) then some (digitsToNat t) else none

/-- The max-ID fold of get_next_available_id (lines 697 to 708): rows too
short to reach the ID column are skipped, as are cells that are not pure digit
strings. -/
def maxIdFold (rows : List (List String)) (idCol : Nat) : Nat :=
  rows.foldl (fun m row =>
    if idCol < row.length then
      match parsedId (row.getD idCol "") with
      | some n => max m n
      | none => m
    else m) 0

/-- get_next_available_id (src/utils/google_sheets.py lines 668 to 715): 1 for
a sheet with fewer than two rows or without an ID column, otherwise one more
than the largest numeric ID cell. -/
def get_next_available_id (sheet : List (List String)) : Nat :=
  match sheet with
  | headers :: row1 :: rows =>
    match findIdColumn headers with
    | none => 1
    | some idCol => maxIdFold (row1 :: rows) idCol + 1
  | _ => 1

/-- The default header row of append_new_ideas (line 549), used when the sheet
is empty. -/
def DEFAULT_HEADERS : List String :=
  ["ID", "Idea", "Hashtag", "Caption", "Production", "Environment_Prompt",
   "Status_Publishing"]

/-- Writing cells from column A of one row, as the Sheets API does for the
ranges An:...n used by the module: the written values replace the row prefix,
cells beyond them keep their old content. -/
def writeCells (row vals : List String) : List String :=
  vals ++ row.drop vals.length

/-- Applying a whole-row update_values call to the remote sheet state. -/
def applyRowWrite (sheet : List (List String)) (rowIdx : Nat)
    (vals : List String) : List (List String) :=
  sheet.set rowIdx (writeCells (sheet.getD rowIdx []) vals)

/-- The ID assignment of append_new_ideas (src/utils/google_sheets.py lines
526 to 632) for a batch of k items: the per-row content apart from the ID cell
comes from the item dicts and does not influence the assigned IDs, so only the
batch size matters here.  When the headers lack an ID column the code inserts
ID at position 0, rewrites the header row remotely (lines 563 to 572), and
only then computes the next ID by re-fetching the sheet, so existing rows are
read with their first column as the ID column. -/
def append_new_ideas_ids (sheet : List (List String)) (k : Nat) : List Nat :=
  if k = 0 then []
  else
    let headers := match sheet with
      | [] => DEFAULT_HEADERS
      | h :: _ => h
    match findIdColumn headers with
    | some _ =>
      let nid := get_next_available_id sheet
      (List.range k).map (fun i => nid + i)
    | none =>
      let headers1 := "ID" :: headers
      let sheet1 := match sheet with
        | [] => [headers1]
        | h :: rest => writeCells h headers1 :: rest
      let nid := get_next_available_id sheet1
      (List.range k).map (fun i => nid + i)

/-- Spec-side reading of the numeric ID cells of the data rows in column c: a
missing cell reads as the empty string and parses to nothing, which matches
the length guard of the code. -/
def idCells (sheet : List (List String)) (c : Nat) : List Nat :=
  (sheet.drop 1).filterMap (fun row => parsedId (row.getD c ""))

/-- Spec-side maximum numeric value found in the ID column, 0 when there is
none. -/
def maxAssignedBase (sheet : List (List String)) (c : Nat) : Nat :=
  (idCells sheet c).foldr max 0

/-- The row scan of update_video_link (src/utils/google_sheets.py lines 425
to 428): unlike update_publishing_status it indexes row[id_col] without a
length check, so a data row shorter than the ID column raises IndexError
(caught by the outer handler, which returns False). -/
def findRowByIdStrict : List (List String) → Nat → String →
    Except Unit (Option Nat)
  | [], _, _ => .ok none
  | r :: rs, idCol, idv =>
    if idCol < r.length then
      if r.getD idCol "" == idv then .ok (some 0)
      else
        match findRowByIdStrict rs idCol idv with
        | .error e => .error e
        | .ok none => .ok none
        | .ok (some j) => .ok (some (j + 1))
    else .error ()

/-- Result of update_video_link: the returned boolean and the remote sheet
state afterwards (writes that happened before an exception persist). -/
structure UpdateLinkRes where
  ok : Bool
  sheet : List (List String)
  deriving DecidableEq

/-- update_video_link (src/utils/google_sheets.py lines 376 to 459), with the
fetched values given directly and update_values applied to the sheet state.
When VIDEO_URL is missing from the header it is appended, the header row is
rewritten remotely and the local data rows are padded (lines 405 to 419).
After locating the row by ID the whole row is rewritten with the URL set
(lines 434 to 443); then, when a header named exactly Status_Publishing
exists, that cell of the same row buffer is set to
settings.STATUS_FOR_PUBLISHING and the whole row is rewritten again (lines
445 to 452), an assignment that raises IndexError when the row buffer is too
short (caught, returning False with the first write already applied). -/
def update_video_link (sheet0 : List (List String)) (idea_id video_url : String) :
    UpdateLinkRes :=
  match sheet0 with
  | headers :: row1 :: rows =>
    let found := headers.findIdx? (fun h => h == "VIDEO_URL")
    let headers1 := match found with
      | some _ => headers
      | none => headers ++ ["VIDEO_URL"]
    let urlCol := match found with
      | some i => i
      | none => headers1.length - 1
    let sheet1 := match found with
      | some _ => sheet0
      | none => applyRowWrite sheet0 0 headers1
    let localRows := match found with
      | some _ => row1 :: rows
      | none => (row1 :: rows).map (fun r =>
          if r.length < headers1.length then extendRow r headers1.length else r)
    let idCol := (headers1.findIdx? (fun h => h == "ID")).getD 0
    match findRowByIdStrict localRows idCol idea_id with
    | .error _ => ⟨false, sheet1⟩
    | .ok none => ⟨false, sheet1⟩
    | .ok (some j) =>
      let row := localRows.getD j []
      let rowPad := if row.length ≤ urlCol then extendRow row (urlCol + 1) else row
      let rowUrl := rowPad.set urlCol video_url
      let sheet2 := applyRowWrite sheet1 (j + 1) rowUrl
      match headers1.findIdx? (fun h => h == "Status_Publishing") with
      | none => ⟨true, sheet2⟩
      | some statusCol =>
        if statusCol < rowUrl.length then
          ⟨true, applyRowWrite sheet2 (j + 1) (rowUrl.set statusCol STATUS_FOR_PUBLISHING)⟩
        else ⟨false, sheet2⟩
  | _ => ⟨false, sheet0⟩

/-! Helper lemmas shared by the claim theorems. -/

theorem storeGet_storePut_ne (st : Store) (k1 k2 : String) (v : PyVal)
    (h : k1 ≠ k2) : storeGet (storePut st k2 v) k1 = storeGet st k1 := by
  simp [storeGet, storePut, List.lookup, beq_eq_false_iff_ne.mpr h]

theorem storeGet_artifact_put_ne (st : Store) (sid key : String) (v : PyVal)
    (h : key ≠ sid ++ "_result.json") :
    storeGet (artifact_put st sid v) key = storeGet st key := by
  unfold artifact_put
  split
  · exact storeGet_storePut_ne st key (sid ++ "_result.json") v h
  · rfl

theorem run_stepAttempts_store_lookup (sid : String) (behavior : Nat → Outcome)
    (key : String) (h : key ≠ sid ++ "_result.json") :
    ∀ (rem attempt : Nat) (store : Store),
      storeGet (run_stepAttempts sid behavior store rem attempt).store key
        = storeGet store key := by
  intro rem
  induction rem with
  | zero => intro attempt store; rfl
  | succ r ih =>
    intro attempt store
    cases r with
    | zero =>
      cases hb : behavior attempt with
      | returns v =>
        simp only [run_stepAttempts, hb]
        exact storeGet_artifact_put_ne store sid key v h
      | raises => simp only [run_stepAttempts, hb]
    | succ r1 =>
      cases hb : behavior attempt with
      | returns v =>
        simp only [run_stepAttempts, hb]
        exact storeGet_artifact_put_ne store sid key v h
      | raises =>
        simp only [run_stepAttempts, hb]
        exact ih (attempt + 1) store

theorem run_stepAttempts_succeeds (sid : String) (behavior : Nat → Outcome) :
    ∀ (n : Nat) (store : Store) (attempt rem : Nat) (v : PyVal),
      n + 1 ≤ rem → (∀ i, i < n → behavior (attempt + i) = .raises) →
      behavior (attempt + n) = .returns v →
      (run_stepAttempts sid behavior store rem attempt).invocations = n + 1 ∧
      (run_stepAttempts sid behavior store rem attempt).result = v := by
  intro n
  induction n with
  | zero =>
    intro store attempt rem v hle _ hret
    rw [Nat.add_zero] at hret
    match rem, hle with
    | 1, _ => simp [run_stepAttempts, hret]
    | r + 2, _ => simp [run_stepAttempts, hret]
  | succ m ih =>
    intro store attempt rem v hle hraise hret
    have h0 : behavior attempt = .raises := by
      have := hraise 0 (Nat.succ_pos m)
      simpa using this
    match rem, hle with
    | r + 2, _ =>
      have hrec := ih store (attempt + 1) (r + 1) v (by omega)
        (fun i hi => by
          have := hraise (i + 1) (by omega)
          simpa [Nat.add_assoc, Nat.add_comm 1 i] using this)
        (by
          have he : attempt + (m + 1) = attempt + 1 + m := by omega
          rw [he] at hret
          exact hret)
      simp only [run_stepAttempts, h0]
      exact ⟨by simp [hrec.1], hrec.2⟩

theorem run_stepAttempts_exhausts (sid : String) (behavior : Nat → Outcome) :
    ∀ (rem : Nat) (store : Store) (attempt : Nat),
      1 ≤ rem → (∀ i, i < rem → behavior (attempt + i) = .raises) →
      run_stepAttempts sid behavior store rem attempt
        = ⟨rem, (List.range (rem - 1)).map (fun j => RETRY_DELAY * (attempt + j + 1)),
            .vNone, store⟩ := by
  intro rem
  induction rem with
  | zero => intro store attempt h; omega
  | succ r ih =>
    intro store attempt _ hraise
    have h0 : behavior attempt = .raises := by
      have := hraise 0 (Nat.succ_pos r)
      simpa using this
    cases r with
    | zero => simp [run_stepAttempts, h0]
    | succ r1 =>
      have hrec := ih store (attempt + 1) (Nat.succ_pos r1)
        (fun i hi => by
          have := hraise (i + 1) (by omega)
          simpa [Nat.add_assoc, Nat.add_comm 1 i] using this)
      simp only [run_stepAttempts, h0, hrec]
      refine congrArg (StepRes.mk (r1 + 1 + 1) · .vNone store) ?_
      have hr : List.range (r1 + 1 + 1 - 1) = 0 :: (List.range (r1 + 1 - 1)).map (· + 1) := by
        simpa using List.range_succ_eq_map (r1 + 1 - 1)
      rw [hr]
      simp only [List.map_cons, List.map_map]
      refine congrArg₂ (· :: ·) (congrArg (RETRY_DELAY * ·) (by omega)) ?_
      refine List.map_congr_left ?_
      intro j _
      simp only [Function.comp_apply]
      exact congrArg (RETRY_DELAY * ·) (by omega)

theorem filter_head_eq_find (p : α → Bool) :
    ∀ (l : List α), (l.filter p).head? = l.find? p := by
  intro l
  induction l with
  | nil => rfl
  | cons a t ih =>
    by_cases h : p a = true
    · simp [List.filter, List.find?, h]
    · have h2 : p a = false := by simpa using h
      simp [List.filter, List.find?, h2, ih]

/-! Claim theorems. -/

/-- C1: the claim says that when a stage still fails after its retries the
Runner consults a single global stop-on-error flag and never lets an exception
out of run_pipeline.  The code instead evaluates settings.STOP_ON_ERROR, an
attribute that src/config/settings.py never defines, so the very first stage
failure raises AttributeError out of run_pipeline: here the lookup of
STOP_ON_ERROR among the settings module bindings is empty, and the pipeline
run on a window whose single stage always raises ends with the AttributeError
propagating. -/
theorem settings_missing_stop_on_error_raises :
    settingsSTOP_ON_ERROR = none ∧
    (run_pipeline (fun _ _ => .raises) (some "publish") (some "publish") 1 false
      []).err = some PyErr.attributeError :=
  ⟨rfl, rfl⟩

/-- C2 counterexample: the claim as stated concludes that a stage function
that returns without raising on its first invocation is recorded as a
success.  A stage function that returns Python None without raising is
invoked exactly once, yet run_pipeline records success as result-is-not-None,
so the stage is recorded as a failure. -/
theorem run_step_none_result_counterexample :
    (run_step "ideas" (fun _ => .returns .vNone) [] 1).invocations = 1 ∧
    stageSuccess (run_step "ideas" (fun _ => .returns .vNone) [] 1) = false :=
  ⟨rfl, rfl⟩

/-- C2 (amended): for a known stage and retry_count R, a stage function that
raises on the first N-1 invocations and returns a non-None value on the Nth
(N at most R) is invoked exactly N times and recorded as a success; one that
raises on every invocation is invoked exactly R times, yields the None
failure record, and the sleeps between consecutive attempts are
RETRY_DELAY * attempt_number for attempt numbers 1 to R-1. -/
theorem run_step_retry_semantics (sid : String) (behavior : Nat → Outcome)
    (store : Store) (R : Nat) (hsid : STEP_IDS.contains sid = true) :
    (∀ N v, 1 ≤ N → N ≤ R →
      (∀ i, i < N - 1 → behavior i = .raises) →
      behavior (N - 1) = .returns v →
      (run_step sid behavior store R).invocations = N ∧
      (run_step sid behavior store R).result = v ∧
      (v.isNone = false → stageSuccess (run_step sid behavior store R) = true)) ∧
    (1 ≤ R → (∀ i, i < R → behavior i = .raises) →
      (run_step sid behavior store R).invocations = R ∧
      (run_step sid behavior store R).result = .vNone ∧
      stageSuccess (run_step sid behavior store R) = false ∧
      (run_step sid behavior store R).sleeps
        = (List.range (R - 1)).map (fun j => RETRY_DELAY * (j + 1))) := by
  have hrs : run_step sid behavior store R = run_stepAttempts sid behavior store R 0 := by
    simp only [run_step, hsid, if_true]
  constructor
  · intro N v hN hNR hraise hret
    obtain ⟨n, rfl⟩ : ∃ n, N = n + 1 := ⟨N - 1, by omega⟩
    have hmain := run_stepAttempts_succeeds sid behavior n store 0 R v (by omega)
      (fun i hi => by simpa using hraise i (by omega))
      (by simpa using hret)
    refine ⟨by rw [hrs]; exact hmain.1, by rw [hrs]; exact hmain.2, ?_⟩
    intro hv
    rw [hrs]
    simp [stageSuccess, hmain.2, hv]
  · intro hR hraise
    have hmain := run_stepAttempts_exhausts sid behavior R store 0 hR
      (fun i hi => by simpa using hraise i hi)
    rw [hrs, hmain]
    refine ⟨rfl, rfl, rfl, ?_⟩
    simp

/-- C2 witness: a stage function raising twice then returning a non-empty
list, with retry_count 3, is invoked three times with a non-None result; a
stage function that always raises, with retry_count 3, is invoked three
times, yields None and sleeps 3 then 6 seconds. -/
theorem run_step_retry_semantics_witness :
    ((run_step "ideas"
        (fun i => if i < 2 then .raises else .returns (.vList [.vInt 1])) [] 3).invocations = 3 ∧
      (run_step "ideas"
        (fun i => if i < 2 then .raises else .returns (.vList [.vInt 1])) [] 3).result
        = .vList [.vInt 1]) ∧
    ((run_step "scenes" (fun _ => .raises) [] 3).invocations = 3 ∧
      (run_step "scenes" (fun _ => .raises) [] 3).sleeps
        = (List.range 2).map (fun j => RETRY_DELAY * (j + 1))) := by
  constructor
  · have h := (run_step_retry_semantics "ideas"
      (fun i => if i < 2 then .raises else .returns (.vList [.vInt 1])) [] 3
      (by decide)).1 3 (.vList [.vInt 1]) (by omega) (by omega)
      (fun i hi => by
        have : i < 2 := by omega
        simp [this])
      (by norm_num)
    exact ⟨h.1, h.2.1⟩
  · have h := (run_step_retry_semantics "scenes" (fun _ => .raises) [] 3
      (by decide)).2 (by omega) (fun i _ => rfl)
    exact ⟨h.1, h.2.2.2⟩

/-- C4 counterexample: the claim includes empty lists among the payloads whose
artifact write/read round-trips, but the write in run_step is guarded by the
truthiness of the result, so an empty list is never written and the read comes
back with the missing-file default, the empty dict, which is not structurally
equal to the empty list. -/
theorem artifact_roundtrip_empty_list_counterexample :
    artifact_get (artifact_put [] "compose" (.vList []))
      ("compose" ++ "_result.json") = .vDict [] ∧
    PyVal.vDict [] ≠ PyVal.vList [] :=
  ⟨rfl, fun h => nomatch h⟩

/-- C4 (amended): for every stage name and every payload that is a non-empty
dict or a non-empty list, writing the stage result artifact and reading the
same file back yields the payload unchanged; payloads that are empty or not a
dict/list are never written by run_step, so they do not round-trip. -/
theorem artifact_roundtrip_nonempty (store : Store) (stepId : String)
    (p : PyVal) (hp : (p.truthy && (p.isDict || p.isList)) = true) :
    artifact_get (artifact_put store stepId p) (stepId ++ "_result.json") = p := by
  simp [artifact_put, hp, artifact_get, storePut, storeGet, List.lookup]

/-- C4 witness: a one-element list payload round-trips through the compose
stage artifact file. -/
theorem artifact_roundtrip_nonempty_witness :
    ((PyVal.vList [.vInt 1]).truthy &&
      ((PyVal.vList [.vInt 1]).isDict || (PyVal.vList [.vInt 1]).isList)) = true ∧
    artifact_get (artifact_put [] "compose" (.vList [.vInt 1]))
      ("compose" ++ "_result.json") = .vList [.vInt 1] :=
  ⟨rfl, artifact_roundtrip_nonempty [] "compose" (.vList [.vInt 1]) rfl⟩

/-- C5 counterexample: the claim includes the default whole-pipeline window
among the runs that clear the temp directory, but run_pipeline compares
start_step to the literal string ideas, so the default start_step None never
cleans: with cleaning enabled and no start stage given, the resolved window
still begins at the first stage while the pre-existing store entry survives
untouched. -/
theorem default_window_no_clean_counterexample :
    (run_pipeline (fun _ _ => .raises) none none 2 true
      [("seed", .vStr "s")]).cleaned = false ∧
    (run_pipeline (fun _ _ => .raises) none none 2 true
      [("seed", .vStr "s")]).window.head? = some "ideas" ∧
    storeGet (run_pipeline (fun _ _ => .raises) none none 2 true
      [("seed", .vStr "s")]).store "seed" = some (.vStr "s") :=
  ⟨rfl, rfl, rfl⟩

/-- C5 (amended): the Runner clears the Artifact Store exactly when cleaning
is enabled and start_stage is explicitly the first stage name ideas; the
default window (start_stage None), including the --all invocation path which
passes start=None, never cleans even though it starts at the first stage. -/
theorem clean_only_explicit_ideas_start (behaviors : String → Nat → Outcome)
    (e : Option String) (retry : Nat) (clean : Bool) (store0 : Store)
    (s : String) :
    (run_pipeline behaviors none e retry clean store0).cleaned = false ∧
    (run_pipeline behaviors (some s) e retry clean store0).cleaned
      = (clean && (s == "ideas")) := by
  constructor
  · simp [run_pipeline, cleanHappens]
  · rfl

theorem foldl_max_filterMap {α : Type} (g : α → Option Nat) :
    ∀ (l : List α) (m : Nat),
      l.foldl (fun acc x =>
        match g x with
        | some n => max acc n
        | none => acc) m
      = max m ((l.filterMap g).foldr max 0) := by
  intro l
  induction l with
  | nil => intro m; simp
  | cons a t ih =>
    intro m
    cases hg : g a with
    | none => simp [List.filterMap_cons, hg, ih]
    | some n => simp [List.filterMap_cons, hg, ih (max m n), Nat.max_assoc]

theorem parsedId_empty : parsedId "" = none := by decide

theorem maxIdFold_eq (rows : List (List String)) (c : Nat) :
    maxIdFold rows c
      = (rows.filterMap (fun row => parsedId (row.getD c ""))).foldr max 0 := by
  have hfun : (fun (m : Nat) (row : List String) =>
      if c < row.length then
        match parsedId (row.getD c "") with
        | some n => max m n
        | none => m
      else m)
      = (fun (m : Nat) (row : List String) =>
        match parsedId (row.getD c "") with
        | some n => max m n
        | none => m) := by
    funext m row
    by_cases h : c < row.length
    · simp [h]
    · have hd : row.getD c "" = "" := List.getD_eq_default row "" (by omega)
      rw [if_neg h, hd, parsedId_empty]
  unfold maxIdFold
  rw [hfun, foldl_max_filterMap]
  simp

theorem get_next_eq_base (H : List String) (rest : List (List String)) (c : Nat)
    (hc : findIdColumn H = some c) :
    get_next_available_id (H :: rest) = maxAssignedBase (H :: rest) c + 1 := by
  cases rest with
  | nil => simp [get_next_available_id, maxAssignedBase, idCells]
  | cons r rs =>
    simp [get_next_available_id, hc, maxAssignedBase, idCells, maxIdFold_eq]

theorem findIdColumn_id_cons (H : List String) :
    findIdColumn ("ID" :: H) = some 0 := by
  have hid : (pyUpper "ID" == "ID") = true := by decide
  simp [findIdColumn, List.findIdx?_cons, hid]

/-- C3 counterexample: the claim says that for a ledger with no ID column the
first assigned ID is 1.  append_new_ideas first inserts an ID header at
column 0, then re-reads the sheet, so the old first column of the existing
data rows is read as the ID column: on a sheet whose header lacks ID but
whose first data cell is the digit string 7, the single appended item gets
ID 8, not 1. -/
theorem append_ids_no_id_column_counterexample :
    findIdColumn ["Count", "Idea"] = none ∧
    append_new_ideas_ids [["Count", "Idea"], ["7", "x"]] 1 = [8] ∧
    (8 : Nat) ≠ 1 :=
  ⟨by decide, by decide, by decide⟩

/-- C3 (amended): with an ID column at index c, appending k items assigns the
consecutive IDs M+1, ..., M+k in batch order, M being the largest numeric
value in the ID column (0 when there is none, so an all-blank or fresh ledger
starts at 1); with no ID column, an ID header is first inserted at column 0
and the IDs are assigned from one more than the largest numeric value of the
existing first column, which is 1 exactly when no old first-column cell is a
digit string; for a ledger with zero data rows the first assigned ID is 1;
and computing the next ID is total and at least 1, so it never throws. -/
theorem append_ids_consecutive (H : List String) (rest : List (List String))
    (k c : Nat) :
    (findIdColumn H = some c →
      append_new_ideas_ids (H :: rest) k
        = (List.range k).map (fun i => maxAssignedBase (H :: rest) c + 1 + i)) ∧
    (findIdColumn H = none →
      append_new_ideas_ids (H :: rest) k
        = (List.range k).map
            (fun i => maxAssignedBase (("ID" :: H) :: rest) 0 + 1 + i)) ∧
    (1 ≤ k → (append_new_ideas_ids [H] k).head? = some 1) ∧
    get_next_available_id [H] = 1 ∧
    1 ≤ get_next_available_id (H :: rest) := by
  have hsome : ∀ (rs : List (List String)) (c1 : Nat), findIdColumn H = some c1 →
      append_new_ideas_ids (H :: rs) k
        = (List.range k).map (fun i => maxAssignedBase (H :: rs) c1 + 1 + i) := by
    intro rs c1 hc
    by_cases hk : k = 0
    · simp [append_new_ideas_ids, hk]
    · simp only [append_new_ideas_ids, hk, if_false, hc]
      rw [get_next_eq_base H rs c1 hc]
  have hnone : ∀ (rs : List (List String)), findIdColumn H = none →
      append_new_ideas_ids (H :: rs) k
        = (List.range k).map
            (fun i => maxAssignedBase (("ID" :: H) :: rs) 0 + 1 + i) := by
    intro rs hc
    by_cases hk : k = 0
    · simp [append_new_ideas_ids, hk]
    · have hw : writeCells H ("ID" :: H) = "ID" :: H := by
        unfold writeCells
        rw [List.drop_eq_nil_of_le (by simp)]
        simp
      simp only [append_new_ideas_ids, hk, if_false, hc, hw]
      rw [get_next_eq_base ("ID" :: H) rs 0 (findIdColumn_id_cons H)]
  have hnext1 : get_next_available_id [H] = 1 := rfl
  refine ⟨hsome rest c, hnone rest, ?_, hnext1, ?_⟩
  · intro hk
    obtain ⟨k1, rfl⟩ : ∃ k1, k = k1 + 1 := ⟨k - 1, by omega⟩
    have hbase : ∀ c1, maxAssignedBase [H] c1 = 0 := by
      intro c1; simp [maxAssignedBase, idCells]
    cases hc : findIdColumn H with
    | some c2 =>
      have := hsome [] c2 hc
      rw [this, List.range_succ_eq_map]
      simp [hbase]
    | none =>
      have := hnone [] hc
      rw [this, List.range_succ_eq_map]
      have hb2 : maxAssignedBase [("ID" :: H)] 0 = 0 := by
        simp [maxAssignedBase, idCells]
      simp [hb2]
  · cases rest with
    | nil => omega
    | cons r rs =>
      cases hc : findIdColumn H with
      | none => simp [get_next_available_id, hc]
      | some c2 => simp [get_next_available_id, hc]

/-- C3 witness: a ledger whose largest numeric ID is 7 receives IDs 8, 9, 10
for a batch of three. -/
theorem append_ids_consecutive_witness :
    findIdColumn ["ID", "Idea"] = some 0 ∧
    append_new_ideas_ids [["ID", "Idea"], ["7", "x"]] 3
      = (List.range 3).map
          (fun i => maxAssignedBase [["ID", "Idea"], ["7", "x"]] 0 + 1 + i) ∧
    (List.range 3).map
        (fun i => maxAssignedBase [["ID", "Idea"], ["7", "x"]] 0 + 1 + i)
      = [8, 9, 10] :=
  ⟨by decide,
   (append_ids_consecutive ["ID", "Idea"] [["7", "x"]] 3 0).1 (by decide),
   by decide⟩

theorem settings_stop_lookup_none : settingsSTOP_ON_ERROR = none := rfl

theorem step_file_names_distinct :
    ∀ d ∈ STEP_IDS, ∀ s ∈ STEP_IDS, d ≠ s →
      d ++ "_result.json" ≠ s ++ "_result.json" := by decide

theorem step_file_ne_summary :
    ∀ d ∈ STEP_IDS, d ++ "_result.json" ≠ "pipeline_summary.json" := by decide

theorem run_step_store_lookup (sid : String) (behavior : Nat → Outcome)
    (store : Store) (retry : Nat) (key : String)
    (h : key ≠ sid ++ "_result.json") :
    storeGet (run_step sid behavior store retry).store key = storeGet store key := by
  unfold run_step
  split
  · exact run_stepAttempts_store_lookup sid behavior key h retry 0 store
  · rfl

theorem runStepsLoop_single_facts (behaviors : String → Nat → Outcome)
    (retry : Nat) (s : String) (store : Store) :
    (runStepsLoop behaviors retry [s] store).results.map Prod.fst = [s] ∧
    (runStepsLoop behaviors retry [s] store).store
      = (run_step s (behaviors s) store retry).store := by
  by_cases h : stageSuccess (run_step s (behaviors s) store retry) = true
  · simp [runStepsLoop, h]
  · have h2 : stageSuccess (run_step s (behaviors s) store retry) = false := by
      simpa using h
    simp [runStepsLoop, h2, settings_stop_lookup_none]

/-- C6: invoking the Runner with start_stage = end_stage = k for a stage k
other than the first resolves the window to exactly that one stage, invokes
exactly that single stage (its declared dependencies only produce log
warnings, so the invocation happens for any content of the artifact store and
any stage behavior), does not clean the temp directory, and leaves the
artifact files of every other stage untouched. -/
theorem single_stage_window (k : String) (behaviors : String → Nat → Outcome)
    (retry : Nat) (clean : Bool) (store0 : Store)
    (hk : k ∈ STEP_IDS) (hki : k ≠ "ideas") :
    (run_pipeline behaviors (some k) (some k) retry clean store0).window = [k] ∧
    (run_pipeline behaviors (some k) (some k) retry clean
      store0).results.map Prod.fst = [k] ∧
    (run_pipeline behaviors (some k) (some k) retry clean store0).cleaned
      = false ∧
    (∀ d, d ∈ STEP_IDS → d ≠ k →
      storeGet (run_pipeline behaviors (some k) (some k) retry clean
          store0).store (d ++ "_result.json")
        = storeGet store0 (d ++ "_result.json")) := by
  have hwin : resolveWindow (some k) (some k) = [k] := by
    fin_cases hk <;> rfl
  have hkb : (k == "ideas") = false := beq_eq_false_iff_ne.mpr hki
  have hclean : cleanHappens clean (some k) = false := by
    show (clean && (some k == some "ideas")) = false
    have h1 : (some k == some "ideas") = (k == "ideas") := rfl
    rw [h1, hkb, Bool.and_false]
  have hRes : run_pipeline behaviors (some k) (some k) retry clean store0
      = (let lr := runStepsLoop behaviors retry [k] store0
         let store2 := match lr.err with
           | some _ => lr.store
           | none =>
             storePut lr.store "pipeline_summary.json"
               (.vDict [("steps_total", .vInt ([k] : List String).length),
                        ("steps_success", .vInt lr.successes)])
         ⟨false, [k], lr.results, lr.successes, lr.err, store2⟩) := by
    unfold run_pipeline
    rw [hclean, hwin]
    rfl
  rw [hRes]
  have hsf := runStepsLoop_single_facts behaviors retry k store0
  refine ⟨rfl, hsf.1, rfl, ?_⟩
  intro d hd hdk
  have hne1 : d ++ "_result.json" ≠ k ++ "_result.json" :=
    step_file_names_distinct d hd k hk hdk
  have hne2 : d ++ "_result.json" ≠ "pipeline_summary.json" :=
    step_file_ne_summary d hd
  show storeGet (match (runStepsLoop behaviors retry [k] store0).err with
    | some _ => (runStepsLoop behaviors retry [k] store0).store
    | none =>
      storePut (runStepsLoop behaviors retry [k] store0).store
        "pipeline_summary.json"
        (.vDict [("steps_total", .vInt ([k] : List String).length),
                 ("steps_success",
                  .vInt (runStepsLoop behaviors retry [k] store0).successes)]))
    (d ++ "_result.json") = storeGet store0 (d ++ "_result.json")
  have htail : storeGet (runStepsLoop behaviors retry [k] store0).store
      (d ++ "_result.json") = storeGet store0 (d ++ "_result.json") := by
    rw [hsf.2]
    exact run_step_store_lookup k (behaviors k) store0 retry (d ++ "_result.json") hne1
  cases herr : (runStepsLoop behaviors retry [k] store0).err with
  | some e => simpa using htail
  | none =>
    simp only []
    rw [storeGet_storePut_ne _ _ _ _ hne2]
    exact htail

/-- C6 witness: running the window videos..videos with always-raising
behaviors and cleaning requested leaves the images stage artifact intact and
invokes only videos. -/
theorem single_stage_window_witness :
    (run_pipeline (fun _ _ => .raises) (some "videos") (some "videos") 2 true
      [("images_result.json", .vInt 7)]).results.map Prod.fst = ["videos"] ∧
    (run_pipeline (fun _ _ => .raises) (some "videos") (some "videos") 2 true
      [("images_result.json", .vInt 7)]).cleaned = false ∧
    storeGet (run_pipeline (fun _ _ => .raises) (some "videos") (some "videos")
      2 true [("images_result.json", .vInt 7)]).store
      ("images" ++ "_result.json") = some (.vInt 7) := by
  have h := single_stage_window "videos" (fun _ _ => .raises) 2 true
    [("images_result.json", .vInt 7)] (by decide) (by decide)
  exact ⟨h.2.1, h.2.2.1, (h.2.2.2 "images" (by decide) (by decide)).trans rfl⟩

/-- C7: reading ledger rows by status is asymmetric in case handling: a row is
selected for production exactly when its Production value equals
settings.STATUS_FOR_PRODUCTION as an exact string, while a row is selected for
publishing exactly when its publishing status equals
settings.STATUS_FOR_PUBLISHING after lower-casing both sides; concretely, the
upper-cased value For Production is not selected for production while the
upper-cased value For Publishing is selected for publishing. -/
theorem status_filter_case_sensitivity (values : List (List String))
    (idea : List (String × String)) :
    (idea ∈ get_ideas_for_production values ↔
      idea ∈ convert_to_dict_list values ∧
        dget idea "Production" = some STATUS_FOR_PRODUCTION) ∧
    (idea ∈ get_ideas_for_publishing values ↔
      idea ∈ convert_to_dict_list values ∧
        pyLower (publishingStatusOf idea) = pyLower STATUS_FOR_PUBLISHING) ∧
    get_ideas_for_production [["ID", "Production"], ["1", "For Production"]]
      = [] ∧
    get_ideas_for_publishing [["ID", "Status_Publishing"],
        ["1", "For Publishing"]]
      = [[("ID", "1"), ("Status_Publishing", "For Publishing")]] := by
  have hp : get_ideas_for_production values
      = (convert_to_dict_list values).filter
          (fun i => dget i "Production" == some STATUS_FOR_PRODUCTION) := by
    cases values <;> rfl
  have hq : get_ideas_for_publishing values
      = (convert_to_dict_list values).filter pubMatch := by
    cases values <;> rfl
  refine ⟨?_, ?_, by decide, by decide⟩
  · rw [hp, List.mem_filter]
    simp [beq_iff_eq]
  · rw [hq, List.mem_filter]
    simp [pubMatch, beq_iff_eq]

/-- C8: ledger operations on missing data return empty, False or zero rather
than raising: a raising or key-less values().get yields the empty list, a
short table converts to the empty dict list, a raising append yields 0, and
update_publishing_status returns False on an empty sheet, a missing status
column, and an unresolved row.  The final conjunct exhibits the divergence
behind the code_bug verdict: with the row resolved but the underlying
update_values call raising, update_publishing_status still returns True,
because line 517 ignores the update result, contradicting the claim and the
method docstring. -/
theorem ledger_missing_data_and_update_error :
    get_values (.error ()) = [] ∧
    get_values (.ok none) = [] ∧
    convert_to_dict_list [] = [] ∧
    convert_to_dict_list [["ID", "Status_Publishing"]] = [] ∧
    append_values (.error ()) = 0 ∧
    update_publishing_status (.ok (some [])) (.ok (some 1)) "1" "published"
      = false ∧
    update_publishing_status (.ok (some [["ID", "Other"], ["1", "x"]]))
      (.ok (some 1)) "1" "published" = false ∧
    update_publishing_status (.ok (some [["ID", "Status_Publishing"],
      ["2", "pending"]])) (.ok (some 1)) "1" "published" = false ∧
    update_publishing_status (.ok (some [["ID", "Status_Publishing"],
      ["1", "pending"]])) (.error ()) "1" "published" = true := by
  refine ⟨rfl, rfl, rfl, rfl, rfl, by decide, by decide, by decide, by decide⟩

/-- C9: when at least two ledger rows carry publishing status for publishing,
one invocation of the publishing stage selects exactly one row to act on: the
first row, in top-to-bottom order, whose publishing status matches, and the
selection is some single row, never a batch. -/
theorem publishing_single_item_selection (values : List (List String))
    (h : 2 ≤ (get_ideas_for_publishing values).length) :
    process_publishing_selection values
      = (convert_to_dict_list values).find? pubMatch ∧
    (process_publishing_selection values).isSome = true := by
  have hg : get_ideas_for_publishing values
      = (convert_to_dict_list values).filter pubMatch := by
    cases values <;> rfl
  constructor
  · show (get_ideas_for_publishing values).head? = _
    rw [hg, filter_head_eq_find]
  · show (get_ideas_for_publishing values).head?.isSome = true
    cases hl : get_ideas_for_publishing values with
    | nil => rw [hl] at h; simp at h
    | cons a t => rfl

/-- C9 witness: with two rows in status for publishing (one of them
upper-cased), the stage selects exactly the first one. -/
theorem publishing_single_item_selection_witness :
    2 ≤ (get_ideas_for_publishing [["ID", "Status_Publishing"],
      ["1", "for publishing"], ["2", "FOR PUBLISHING"]]).length ∧
    process_publishing_selection [["ID", "Status_Publishing"],
      ["1", "for publishing"], ["2", "FOR PUBLISHING"]]
      = (convert_to_dict_list [["ID", "Status_Publishing"],
          ["1", "for publishing"], ["2", "FOR PUBLISHING"]]).find? pubMatch ∧
    (convert_to_dict_list [["ID", "Status_Publishing"],
        ["1", "for publishing"], ["2", "FOR PUBLISHING"]]).find? pubMatch
      = some [("ID", "1"), ("Status_Publishing", "for publishing")] :=
  ⟨by decide,
   (publishing_single_item_selection [["ID", "Status_Publishing"],
      ["1", "for publishing"], ["2", "FOR PUBLISHING"]] (by decide)).1,
   by decide⟩

/-- C10: a successful update_video_link on a ledger whose header carries a
column named exactly Status_Publishing does not only set the video URL cell:
it rewrites the whole matched row and overwrites the Status_Publishing cell
with for publishing, whatever status value the row held before — here shown
for every id, free-text field, previous URL, previous status and new URL. -/
theorem update_video_link_overwrites_status
    (idv ideaTxt oldUrl oldStatus url : String) :
    update_video_link
      [["ID", "Idea", "VIDEO_URL", "Status_Publishing"],
       [idv, ideaTxt, oldUrl, oldStatus]] idv url
    = ⟨true,
       [["ID", "Idea", "VIDEO_URL", "Status_Publishing"],
        [idv, ideaTxt, url, STATUS_FOR_PUBLISHING]]⟩ := by
  simp [update_video_link, findRowByIdStrict, applyRowWrite, writeCells,
    extendRow, List.findIdx?_cons]

end POV
